import Mathlib

/-!
# prometheus-metar: the metric registry and the station collector

A shallow embedding of `main.go`.

* A Go `float64` is a `Float64`: NaN, an infinity, or a finite value given as a
  rational number. The conversions `float64(n)` of an integer, the conversion
  of a constant such as `3.6`, and the product of two float64 values round to
  the nearest binary64 value, ties to even (`round64`), with overflow to an
  infinity and gradual underflow. The sign of a zero is not modelled: both
  zeros are `fin 0`, and they compare equal in Go.
* A Go `int` or `int64` is an `Int`; the conversions are total on `Int` and are
  Go's on the 64-bit range.
* The package-level map `metrics` is a partial function from metric names to
  gauge vectors, a gauge vector a partial function from the value of its one
  label (`station`) to the current gauge value.
* A Go panic (a nil `*GaugeVec` dereference, `MustRegisterOrGet` failing) is
  the result `none`.
* The provider result, the clock and the conversion functions of the go-metar
  library are inputs: none of them is defined in this repository.
-/

namespace PrometheusMetar

/-! ## float64 -/

/-- A Go `float64` value. A finite value is given by the rational number it
denotes; `round64` produces only the rationals that binary64 can hold. -/
inductive Float64 where
  | nan : Float64
  | inf (negative : Bool) : Float64
  | fin (q : ℚ) : Float64
  deriving DecidableEq

/-- Search upwards from `e` for the binary exponent of `a`: the result `r` has
`2 ^ r ≤ a < 2 ^ (r + 1)` when `2 ^ e ≤ a` and the fuel suffices. -/
def expUp : ℕ → ℤ → ℚ → ℤ
  | 0, e, _ => e
  | fuel + 1, e, a => if 2 ^ (e + 1) ≤ a then expUp fuel (e + 1) a else e

/-- Search downwards from `e` for the binary exponent of `a`. -/
def expDown : ℕ → ℤ → ℚ → ℤ
  | 0, e, _ => e
  | fuel + 1, e, a => if a < 2 ^ e then expDown fuel (e - 1) a else e

/-- The binary exponent of `a ≥ 0` within the range of binary64: the `e` with
`2 ^ e ≤ a < 2 ^ (e + 1)`, not below the least normal exponent -1022 and not
above 1024. -/
def exponent (a : ℚ) : ℤ :=
  if 1 ≤ a then expUp 1024 0 a else expDown 1022 0 a

/-- The integer nearest to `m`, the even one of the two when `m` lies halfway. -/
def roundHalfEven (m : ℚ) : ℤ :=
  let f : ℤ := ⌊m⌋
  if m - f < 1 / 2 then f
  else if 1 / 2 < m - f then f + 1
  else if f % 2 = 0 then f else f + 1

/-- IEEE 754 binary64 rounding of a rational number, to nearest, ties to even: a
53-bit significand at the exponent of `x` (at the fixed quantum `2 ^ -1074`
below the normal range), an infinity when the rounded magnitude reaches
`2 ^ 1024`. -/
def round64 (x : ℚ) : Float64 :=
  let k : ℤ := exponent |x| - 52
  let y : ℚ := (roundHalfEven (x / 2 ^ k) : ℚ) * 2 ^ k
  if (2 : ℚ) ^ (1024 : ℤ) ≤ |y| then .inf (decide (x < 0)) else .fin y

/-- The Go conversion `float64(n)` of an integer. -/
def Float64.ofInt (n : ℤ) : Float64 := round64 n

/-- A Go numeric constant (an exact number) used as a `float64`. -/
def Float64.const (x : ℚ) : Float64 := round64 x

/-- The Go product `a * b` of two `float64` values. -/
def Float64.mul : Float64 → Float64 → Float64
  | .fin a, .fin b => round64 (a * b)
  | .fin a, .inf s => if a = 0 then .nan else .inf (s != decide (a < 0))
  | .inf s, .fin b => if b = 0 then .nan else .inf (s != decide (b < 0))
  | .inf s, .inf t => .inf (s != t)
  | _, _ => .nan

/-! ## Data model -/

/-- A `prometheus.GaugeVec` with the single label `station`: its help text and
the gauge value currently held under each label value. -/
structure GaugeVec where
  help : String
  values : String → Option Float64

/-- The package-level `metrics = map[string]*prometheus.GaugeVec{}`. The entry
stored under a name is the collector registered at prometheus under that name,
so the one map stands for both. -/
abbrev Metrics := String → Option GaugeVec

/-- The initial value of `metrics`: the empty map. -/
def emptyMetrics : Metrics := fun _ => none

/-- The gauge value held for `(name, station)`, absent when the metric is not
defined or the station was never set. -/
def value (metrics : Metrics) (name station : String) : Option Float64 :=
  (metrics name).bind (fun g => g.values station)

def metricTemperature : String := "temperature"
def metricSuccess : String := "query_success"
def metricFetchTime : String := "fetch_time"
def metricTime : String := "observation_time"
def metricDewpoint : String := "dewpoint"
def metricWindDirection : String := "wind_direction"
def metricWindSpeed : String := "wind_speed"
def metricVisibility : String := "visibility"
def metricAltimeter : String := "altimeter"
def metricSkyCover : String := "skycover"
def metricBft : String := "wind_force"

/-- A `time.Time`, as far as the program looks at it: `t.UTC().Unix()`, the
seconds since the epoch (an `int64`). -/
structure Time where
  Unix : Int

/-- The `SkyCondition` field of an observation; `SkyCover` is a string type. -/
structure SkyCondition where
  SkyCover : String

/-- The fields of the value `metar.FetchCurrentStationWeather` returns that
`queryStation` reads, with the types their uses in `queryStation` give them:
`float64` where the field is passed on as it is, `int` where it is converted
with `float64(..)`. -/
structure Observation where
  Temperature : Float64
  ObservationTime : Time
  Dewpoint : Float64
  WindDirDegrees : Int
  WindSpeed : Int
  VisibilityStatute : Float64
  Altimeter : Float64
  SkyCondition : SkyCondition

/-- The conversion functions of the go-metar library that `queryStation`
calls. They are not part of this repository and are taken as parameters. -/
structure Metar where
  KtsToMs : Float64 → Float64
  StatMileToKm : Float64 → Float64
  InHgTohPa : Float64 → Float64
  KtsToBft : Float64 → Int

/-- Modelled from the spec: the go-metar constant `metar.SkyCoverFEW`, the
sky-cover category the spec writes FEW. -/
def SkyCoverFEW : String := "FEW"

/-- Modelled from the spec: the go-metar constant `metar.SkyCoverSCT`, the
sky-cover category the spec writes SCT. -/
def SkyCoverSCT : String := "SCT"

/-- Modelled from the spec: the go-metar constant `metar.SkyCoverBKN`, the
sky-cover category the spec writes BKN. -/
def SkyCoverBKN : String := "BKN"

/-- Modelled from the spec: the go-metar constant `metar.SkyCoverOVC`, the
sky-cover category the spec writes OVC. -/
def SkyCoverOVC : String := "OVC"

/-- The go_helpers function `str.StringInSlice(a, list)`: whether `a` equals
one of the entries of `list`. -/
def StringInSlice (a : String) (list : List String) : Bool :=
  list.any (fun b => b == a)

/-! ## Registration -/

/-- The overall effect of
`metrics[name] = prometheus.MustRegisterOrGet(prometheus.NewGaugeVec(..))`:
a name not yet registered gets a fresh gauge vector without values; a name
already registered with the same help text yields the existing collector;
the same name with another help text is a registration error, which
`MustRegisterOrGet` turns into a panic. -/
def buildMetric (name help : String) (metrics : Metrics) : Option Metrics :=
  match metrics name with
  | none => some (Function.update metrics name (some { help := help, values := fun _ => none }))
  | some g => if g.help = help then some metrics else none

/-- The function `registerMetrics()`: the eleven `buildMetric` calls in program
order. -/
def registerMetrics (metrics : Metrics) : Option Metrics := do
  let metrics ← buildMetric metricTemperature "Air temperature (celsius)" metrics
  let metrics ← buildMetric metricSuccess "Indicates whether the last fetch was a success (0/1)" metrics
  let metrics ← buildMetric metricTime
    "Contains the observation time of the current data reported by the station (UTC)" metrics
  let metrics ← buildMetric metricDewpoint "Dewpoint temperature (celsius)" metrics
  let metrics ← buildMetric metricWindDirection
    "Direction from which the wind is blowing. 0 degrees=variable wind direction." metrics
  let metrics ← buildMetric metricWindSpeed
    "Wind speed; 0 degree wdir and 0 wspd = calm winds (km/h)" metrics
  let metrics ← buildMetric metricVisibility "Horizontal visibility (km)" metrics
  let metrics ← buildMetric metricAltimeter "Altimeter (hPa)" metrics
  let metrics ← buildMetric metricSkyCover "Sky cover in % (0 = clear, 1 = full cover)" metrics
  let metrics ← buildMetric metricFetchTime "Contains the timestamp of the last successful fetch" metrics
  buildMetric metricBft "Wind force in Beaufort wind force scale" metrics

/-! ## The station collector -/

/-- The statement `metrics[name].WithLabelValues(station).Set(v)`: a panic when
`metrics[name]` is nil, otherwise the gauge under `station` is overwritten. -/
def setGauge (name station : String) (v : Float64) (metrics : Metrics) : Option Metrics :=
  match metrics name with
  | none => none
  | some g =>
    some (Function.update metrics name
      (some { g with values := Function.update g.values station (some v) }))

/-- The function `queryStation(station)`. `fetched` is the pair `(data, err)` that
`metar.FetchCurrentStationWeather(station)` returned and `now` is the
`time.Now()` read at line 134. The log line of the error branch is not
modelled. -/
def queryStation (lib : Metar) (fetched : Except String Observation) (now : Time)
    (station : String) (metrics : Metrics) : Option Metrics :=
  match fetched with
  | .error _ => setGauge metricSuccess station (Float64.const 0) metrics
  | .ok data => do
    let metrics ← setGauge metricTemperature station data.Temperature metrics
    let metrics ← setGauge metricSuccess station (Float64.const 1) metrics
    let metrics ← setGauge metricTime station (Float64.ofInt data.ObservationTime.Unix) metrics
    let metrics ← setGauge metricDewpoint station data.Dewpoint metrics
    let metrics ← setGauge metricWindDirection station
      (Float64.ofInt data.WindDirDegrees) metrics
    let metrics ← setGauge metricWindSpeed station
      ((lib.KtsToMs (Float64.ofInt data.WindSpeed)).mul (Float64.const 3.6)) metrics
    let metrics ← setGauge metricVisibility station
      (lib.StatMileToKm data.VisibilityStatute) metrics
    let metrics ← setGauge metricAltimeter station (lib.InHgTohPa data.Altimeter) metrics
    let metrics ←
      if StringInSlice data.SkyCondition.SkyCover ["SKC", "CLR", "NSC", "CAVOK"] then
        setGauge metricSkyCover station (Float64.const 0) metrics
      else if data.SkyCondition.SkyCover = SkyCoverFEW then
        setGauge metricSkyCover station (Float64.const (2.0 / 8.0)) metrics
      else if data.SkyCondition.SkyCover = SkyCoverSCT then
        setGauge metricSkyCover station (Float64.const (4.0 / 8.0)) metrics
      else if data.SkyCondition.SkyCover = SkyCoverBKN then
        setGauge metricSkyCover station (Float64.const (7.0 / 8.0)) metrics
      else if data.SkyCondition.SkyCover = SkyCoverOVC then
        setGauge metricSkyCover station (Float64.const 1) metrics
      else
        some metrics
    let metrics ← setGauge metricFetchTime station (Float64.ofInt now.Unix) metrics
    setGauge metricBft station
      (Float64.ofInt (lib.KtsToBft (Float64.ofInt data.WindSpeed))) metrics

/-- One `queryStation` call together with what the outside world answered it:
the station, the provider result and the clock reading. -/
structure Call where
  station : String
  fetched : Except String Observation
  now : Time

/-- A finite sequence of `queryStation` calls, run one after the other. -/
def runCalls (lib : Metar) : List Call → Metrics → Option Metrics
  | [], metrics => some metrics
  | c :: cs, metrics =>
    (queryStation lib c.fetched c.now c.station metrics).bind (runCalls lib cs)

/-! ## Startup -/

/-- How `main` ends up: with `log.Fatalf` before anything is started, or with
the scheduler started, the first collection round launched (one collector per
listed station) and the listener entered. -/
inductive Startup where
  | fatal (msg : String)
  | serving (round : List String)
  deriving DecidableEq

/-- The collection round `queryMetrics()` launches: one `queryStation` per
configured station. -/
def queryMetrics (Stations : List String) : List String :=
  (List.range Stations.length).filterMap (fun i => Stations[i]?)

/-- The control flow of `main` after `registerMetrics()`. `parseErr` is the error
of `rconfig.Parse`, `intervalErr` the error of `time.ParseDuration`, and
`Stations` the parsed `cfg.Stations`. -/
def main (parseErr intervalErr : Option String) (Stations : List String) : Startup :=
  match parseErr with
  | some err => .fatal ("Error while parsing flags: " ++ err)
  | none =>
    match intervalErr with
    | some err => .fatal ("Unable to parse interval parameter: " ++ err)
    | none =>
      if Stations.length = 1 ∧ Stations[0]? = some "" then
        .fatal "You need to specify at least one station to fetch data from."
      else
        .serving (queryMetrics Stations)

/-! ## Auxiliary definitions -/

/-- The eleven metric names, in the order `registerMetrics` defines them. -/
def metricNames : List String :=
  [metricTemperature, metricSuccess, metricTime, metricDewpoint, metricWindDirection,
   metricWindSpeed, metricVisibility, metricAltimeter, metricSkyCover, metricFetchTime,
   metricBft]

/-- Every one of the eleven metrics is defined: the state `main` establishes by
calling `registerMetrics()` before anything else. -/
def Registered (metrics : Metrics) : Prop :=
  ∀ n ∈ metricNames, (metrics n).isSome = true

/-- The registry after a gauge write that does not panic. -/
def put (name station : String) (v : Float64) (metrics : Metrics) : Metrics :=
  Function.update metrics name
    ((metrics name).map fun g => { g with values := Function.update g.values station (some v) })

/-- The switch of `queryStation` read as a function: the fraction written for a
sky-cover category, `none` for a category that no case matches. -/
def skyCoverFraction (c : String) : Option Float64 :=
  if StringInSlice c ["SKC", "CLR", "NSC", "CAVOK"] then some (Float64.const 0)
  else if c = SkyCoverFEW then some (Float64.const (2.0 / 8.0))
  else if c = SkyCoverSCT then some (Float64.const (4.0 / 8.0))
  else if c = SkyCoverBKN then some (Float64.const (7.0 / 8.0))
  else if c = SkyCoverOVC then some (Float64.const 1)
  else none

/-- A sequence of gauge writes for one station, applied first to last. -/
def putAll (station : String) : List (String × Float64) → Metrics → Metrics
  | [], metrics => metrics
  | w :: ws, metrics => putAll station ws (put w.1 station w.2 metrics)

/-- What a sequence of writes leaves under metric `m`, given what was there. -/
def overlay : List (String × Float64) → String → Option Float64 → Option Float64
  | [], _, old => old
  | w :: ws, m, old => overlay ws m (if m = w.1 then some w.2 else old)

/-- The gauge writes of the success path of `queryStation`, in program order. -/
def writes (lib : Metar) (data : Observation) (now : Time) : List (String × Float64) :=
  [(metricTemperature, data.Temperature),
   (metricSuccess, Float64.const 1),
   (metricTime, Float64.ofInt data.ObservationTime.Unix),
   (metricDewpoint, data.Dewpoint),
   (metricWindDirection, Float64.ofInt data.WindDirDegrees),
   (metricWindSpeed, (lib.KtsToMs (Float64.ofInt data.WindSpeed)).mul (Float64.const 3.6)),
   (metricVisibility, lib.StatMileToKm data.VisibilityStatute),
   (metricAltimeter, lib.InHgTohPa data.Altimeter)]
  ++ (match skyCoverFraction data.SkyCondition.SkyCover with
      | some v => [(metricSkyCover, v)]
      | none => [])
  ++ [(metricFetchTime, Float64.ofInt now.Unix),
      (metricBft, Float64.ofInt (lib.KtsToBft (Float64.ofInt data.WindSpeed)))]

/-- The name and help text of every `buildMetric` call of `registerMetrics`, in
program order. -/
def metricHelp : List (String × String) :=
  [(metricTemperature, "Air temperature (celsius)"),
   (metricSuccess, "Indicates whether the last fetch was a success (0/1)"),
   (metricTime,
     "Contains the observation time of the current data reported by the station (UTC)"),
   (metricDewpoint, "Dewpoint temperature (celsius)"),
   (metricWindDirection,
     "Direction from which the wind is blowing. 0 degrees=variable wind direction."),
   (metricWindSpeed, "Wind speed; 0 degree wdir and 0 wspd = calm winds (km/h)"),
   (metricVisibility, "Horizontal visibility (km)"),
   (metricAltimeter, "Altimeter (hPa)"),
   (metricSkyCover, "Sky cover in % (0 = clear, 1 = full cover)"),
   (metricFetchTime, "Contains the timestamp of the last successful fetch"),
   (metricBft, "Wind force in Beaufort wind force scale")]

/-- A list of `buildMetric` calls, run first to last. -/
def buildAll : List (String × String) → Metrics → Option Metrics
  | [], metrics => some metrics
  | d :: ds, metrics => (buildMetric d.1 d.2 metrics).bind (buildAll ds)

/-- The metric `name` is defined with help text `help`. -/
def HasHelp (metrics : Metrics) (name help : String) : Prop :=
  ∃ g, metrics name = some g ∧ g.help = help

/-- The nine metrics that only the success path of `queryStation` writes and that
it writes on every success. -/
def observationMetrics : List String :=
  [metricTemperature, metricTime, metricDewpoint, metricWindDirection, metricWindSpeed,
   metricVisibility, metricAltimeter, metricFetchTime, metricBft]

/-- The per-station shape of the values that sequences of `queryStation` calls
maintain: the success flag is 0 or 1, the sky cover one of the five fractions,
and a station with any of the nine observation metrics has all nine and the
success flag. -/
def Consistent (metrics : Metrics) : Prop :=
  ∀ s,
    (∀ v, value metrics metricSuccess s = some v → v = .fin 0 ∨ v = .fin 1) ∧
    (∀ v, value metrics metricSkyCover s = some v →
      v = .fin 0 ∨ v = .fin 0.25 ∨ v = .fin 0.5 ∨ v = .fin 0.875 ∨ v = .fin 1) ∧
    ((∃ m ∈ observationMetrics, (value metrics m s).isSome = true) →
      (∀ m ∈ observationMetrics, (value metrics m s).isSome = true) ∧
      (value metrics metricSuccess s).isSome = true)

/-- The finite value `a` is within the relative distance `ε` of `b`. -/
def Close (ε a b : ℚ) : Prop := |a - b| ≤ ε * |b|

/-- The registry `main` holds after `registerMetrics()` on the initial empty map:
the eleven metrics defined, no station with a value. -/
def startMetrics : Metrics := (registerMetrics emptyMetrics).getD emptyMetrics

/-- Modelled from the spec: the Beaufort force of a wind speed in knots, the step
function of the usual thresholds (section 4.1). -/
def beaufort (v : ℚ) : Int :=
  if v < 1 then 0 else if v < 4 then 1 else if v < 7 then 2 else if v < 11 then 3
  else if v < 17 then 4 else if v < 22 then 5 else if v < 28 then 6
  else if v < 34 then 7 else if v < 41 then 8 else if v < 48 then 9
  else if v < 56 then 10 else if v < 64 then 11 else 12

/-- Modelled from the spec: a conversion formula of section 4.1 as a `float64`
function, the exact result rounded once; NaN and the infinities are passed
on. -/
def convert (f : ℚ → ℚ) : Float64 → Float64
  | .fin q => round64 (f q)
  | x => x

/-- Modelled from the spec: the go-metar conversions, as section 4.1 of the spec
gives them (1 kt = 1.852 km/h, hence 1.852 / 3.6 m/s; 1 mi = 1.609344 km;
1 inHg = 33.8639 hPa; the usual Beaufort thresholds in knots), each computed
exactly and rounded once to `float64`. -/
def specMetar : Metar where
  KtsToMs := convert (fun v => v * 1.852 / 3.6)
  StatMileToKm := convert (fun v => v * 1.609344)
  InHgTohPa := convert (fun v => v * 33.8639)
  KtsToBft x :=
    match x with
    | .fin v => beaufort v
    | .inf false => 12
    | _ => 0

/-- A variant of `specMetar` whose `KtsToMs` is the `float64` product with the
six-digit factor 0.514444 in place of 1.852 / 3.6. -/
def truncatedMetar : Metar :=
  { specMetar with KtsToMs := fun x => x.mul (Float64.const 0.514444) }

/-- A sample observation with a few clouds and a wind of 10 kt. -/
def obsFew : Observation where
  Temperature := .fin 12
  ObservationTime := ⟨1478000000⟩
  Dewpoint := .fin 7
  WindDirDegrees := 240
  WindSpeed := 10
  VisibilityStatute := .fin 6.25
  Altimeter := .fin 29.875
  SkyCondition := ⟨"FEW"⟩

/-- A sample observation whose sky-cover category (obscured sky) has no case in
the switch. -/
def obsObscured : Observation where
  Temperature := .fin 3
  ObservationTime := ⟨1478003600⟩
  Dewpoint := .fin 3
  WindDirDegrees := 0
  WindSpeed := 2
  VisibilityStatute := .fin 0.25
  Altimeter := .fin 30
  SkyCondition := ⟨"OVX"⟩

/-- An observation whose wind direction field holds `2 ^ 53 + 1`, an `int` that
no `float64` holds. -/
def obsOddDirection : Observation where
  Temperature := .fin 12
  ObservationTime := ⟨1478000000⟩
  Dewpoint := .fin 7
  WindDirDegrees := 9007199254740993
  WindSpeed := 10
  VisibilityStatute := .fin 6.25
  Altimeter := .fin 29.875
  SkyCondition := ⟨"FEW"⟩

/-- A sample sequence of calls: a failure, two successes and a failure, over two
stations. -/
def sampleCalls : List Call :=
  [⟨"KJFK", .error "connection refused", ⟨1478000000⟩⟩,
   ⟨"EDDF", .ok obsFew, ⟨1478000300⟩⟩,
   ⟨"KJFK", .ok obsObscured, ⟨1478003900⟩⟩,
   ⟨"EDDF", .error "timeout", ⟨1478004200⟩⟩]

/-- The registry after one successful collection of `obsFew` for station KJFK on
the start registry: every metric of KJFK has a value. -/
def seededMetrics : Metrics :=
  (queryStation specMetar (.ok obsFew) ⟨1478000300⟩ "KJFK" startMetrics).getD startMetrics

/-! ## Lemmas on float64 rounding -/

theorem expUp_spec (fuel : ℕ) (e : ℤ) (a : ℚ) :
    e ≤ expUp fuel e a ∧ expUp fuel e a ≤ e + fuel ∧
      ((2 : ℚ) ^ e ≤ a → (2 : ℚ) ^ expUp fuel e a ≤ a) ∧
      (expUp fuel e a < e + fuel → a < (2 : ℚ) ^ (expUp fuel e a + 1)) := by
  induction fuel generalizing e with
  | zero => simp [expUp]
  | succ fuel ih =>
    unfold expUp
    split_ifs with h
    · obtain ⟨h1, h2, h3, h4⟩ := ih (e + 1)
      refine ⟨by omega, by push_cast; omega, fun _ => h3 h, fun hlt => h4 ?_⟩
      push_cast at hlt
      omega
    · refine ⟨le_refl _, by push_cast; omega, fun h0 => h0, fun _ => lt_of_not_ge h⟩

theorem expDown_spec (fuel : ℕ) (e : ℤ) (a : ℚ) :
    e - fuel ≤ expDown fuel e a ∧ expDown fuel e a ≤ e ∧
      (a < (2 : ℚ) ^ (e + 1) → a < (2 : ℚ) ^ (expDown fuel e a + 1)) ∧
      (e - fuel < expDown fuel e a → (2 : ℚ) ^ expDown fuel e a ≤ a) := by
  induction fuel generalizing e with
  | zero => simp [expDown]
  | succ fuel ih =>
    unfold expDown
    split_ifs with h
    · obtain ⟨h1, h2, h3, h4⟩ := ih (e - 1)
      refine ⟨by push_cast; omega, by omega, fun _ => h3 (by simpa using h), fun hlt => h4 ?_⟩
      push_cast at hlt
      omega
    · refine ⟨by push_cast; omega, le_refl _, fun h0 => h0, fun _ => le_of_not_lt h⟩

theorem exponent_spec (a : ℚ) (h1 : (2 : ℚ) ^ (-1022 : ℤ) ≤ a) (h2 : a < (2 : ℚ) ^ (1024 : ℤ)) :
    (2 : ℚ) ^ exponent a ≤ a ∧ a < (2 : ℚ) ^ (exponent a + 1) := by
  unfold exponent
  split_ifs with h
  · obtain ⟨_, _, h3, h4⟩ := expUp_spec 1024 0 a
    have hle := h3 (by simpa using h)
    refine ⟨hle, h4 ?_⟩
    have : (2 : ℚ) ^ expUp 1024 0 a < (2 : ℚ) ^ (1024 : ℤ) := lt_of_le_of_lt hle h2
    have := (zpow_lt_zpow_iff_right₀ (by norm_num : (1 : ℚ) < 2)).1 this
    push_cast
    omega
  · obtain ⟨h5, _, h3, h4⟩ := expDown_spec 1022 0 a
    refine ⟨?_, h3 (by norm_num; linarith)⟩
    by_cases hr : (0 : ℤ) - (1022 : ℕ) < expDown 1022 0 a
    · exact h4 hr
    · have : expDown 1022 0 a = -1022 := by push_cast at hr h5; omega
      rw [this]
      exact h1

theorem roundHalfEven_spec (m : ℚ) : |(roundHalfEven m : ℚ) - m| ≤ 1 / 2 := by
  have h1 := Int.floor_le m
  have h2 := Int.lt_floor_add_one m
  unfold roundHalfEven
  simp only []
  split_ifs with c1 c2 c3
  · rw [abs_le]; constructor <;> linarith
  · rw [abs_le]; push_cast; constructor <;> linarith
  · rw [abs_le]; constructor <;> linarith
  · rw [abs_le]; push_cast; constructor <;> linarith

theorem roundHalfEven_intCast (n : ℤ) : roundHalfEven (n : ℚ) = n := by
  unfold roundHalfEven
  simp

theorem round64_error (x : ℚ) (h1 : (2 : ℚ) ^ (-1022 : ℤ) ≤ |x|)
    (h2 : |x| < (2 : ℚ) ^ (1023 : ℤ)) :
    ∃ y, round64 x = .fin y ∧ |y - x| ≤ |x| / 2 ^ 53 := by
  have h2' : |x| < (2 : ℚ) ^ (1024 : ℤ) := lt_trans h2 (by norm_num)
  obtain ⟨he1, he2⟩ := exponent_spec |x| h1 h2'
  set e := exponent |x| with he
  have hk : (0 : ℚ) < 2 ^ (e - 52) := zpow_pos (by norm_num) _
  have herr := roundHalfEven_spec (x / 2 ^ (e - 52))
  have hy : |(roundHalfEven (x / 2 ^ (e - 52)) : ℚ) * 2 ^ (e - 52) - x| ≤ |x| / 2 ^ 53 := by
    have : (roundHalfEven (x / 2 ^ (e - 52)) : ℚ) * 2 ^ (e - 52) - x
        = ((roundHalfEven (x / 2 ^ (e - 52)) : ℚ) - x / 2 ^ (e - 52)) * 2 ^ (e - 52) := by
      field_simp
    rw [this, abs_mul, abs_of_pos hk]
    have h52 : (2 : ℚ) ^ (e - 52) = 2 ^ e / 2 ^ 52 := by
      rw [zpow_sub₀ (by norm_num)]; norm_num
    calc |(roundHalfEven (x / 2 ^ (e - 52)) : ℚ) - x / 2 ^ (e - 52)| * 2 ^ (e - 52)
        ≤ 1 / 2 * 2 ^ (e - 52) := by gcongr
      _ = 2 ^ e / 2 ^ 53 := by rw [h52]; ring
      _ ≤ |x| / 2 ^ 53 := by gcongr
  refine ⟨(roundHalfEven (x / 2 ^ (e - 52)) : ℚ) * 2 ^ (e - 52), ?_, hy⟩
  unfold round64
  simp only [← he]
  rw [if_neg]
  rw [not_le]
  have habs : |(roundHalfEven (x / 2 ^ (e - 52)) : ℚ) * 2 ^ (e - 52)| ≤ |x| + |x| / 2 ^ 53 := by
    have := abs_sub_abs_le_abs_sub ((roundHalfEven (x / 2 ^ (e - 52)) : ℚ) * 2 ^ (e - 52)) x
    linarith
  have hx0 : (0 : ℚ) ≤ |x| := abs_nonneg x
  calc |(roundHalfEven (x / 2 ^ (e - 52)) : ℚ) * 2 ^ (e - 52)|
      ≤ |x| + |x| / 2 ^ 53 := habs
    _ ≤ |x| * 2 := by
        have : |x| / 2 ^ 53 ≤ |x| := div_le_self hx0 (by norm_num)
        linarith
    _ < 2 ^ (1023 : ℤ) * 2 := by linarith
    _ = 2 ^ (1024 : ℤ) := by norm_num

theorem round64_zero : round64 0 = .fin 0 := by decide!

theorem round64_intCast (n : ℤ) (h : |n| ≤ 2 ^ 53) : round64 (n : ℚ) = .fin (n : ℚ) := by
  by_cases h0 : n = 0
  · subst h0
    simpa using round64_zero
  have hq : |(n : ℚ)| ≤ 2 ^ 53 := by
    rw [← Int.cast_abs]
    exact_mod_cast h
  have h1 : (1 : ℚ) ≤ |(n : ℚ)| := by
    rw [← Int.cast_abs]
    exact_mod_cast Int.one_le_abs h0
  obtain ⟨he1, he2⟩ := exponent_spec |(n : ℚ)| (le_trans (by norm_num) h1)
    (lt_of_le_of_lt hq (by norm_num))
  have e_le : exponent |(n : ℚ)| ≤ 53 := by
    have : (2 : ℚ) ^ exponent |(n : ℚ)| ≤ 2 ^ (53 : ℤ) := le_trans he1 (by norm_num; exact hq)
    exact (zpow_le_zpow_iff_right₀ (by norm_num : (1 : ℚ) < 2)).1 this
  have e_ge : 0 ≤ exponent |(n : ℚ)| := by
    have : (2 : ℚ) ^ (0 : ℤ) < 2 ^ (exponent |(n : ℚ)| + 1) := by
      simpa using lt_of_le_of_lt h1 he2
    have := (zpow_lt_zpow_iff_right₀ (by norm_num : (1 : ℚ) < 2)).1 this
    omega
  have hk : (0 : ℚ) < 2 ^ (exponent |(n : ℚ)| - 52) := zpow_pos (by norm_num) _
  have hz : ∃ z : ℤ, (n : ℚ) / 2 ^ (exponent |(n : ℚ)| - 52) = z := by
    by_cases h53 : exponent |(n : ℚ)| = 53
    · have habs : |(n : ℚ)| = 2 ^ 53 := by
        refine le_antisymm hq ?_
        rw [h53] at he1
        norm_num at he1
        exact he1
      rw [h53]
      rcases (abs_eq (by positivity)).1 habs with hn | hn
      · exact ⟨2 ^ 52, by rw [hn]; norm_num⟩
      · exact ⟨-2 ^ 52, by rw [hn]; norm_num⟩
    · obtain ⟨j, hj⟩ : ∃ j : ℕ, exponent |(n : ℚ)| - 52 = -(j : ℤ) :=
        ⟨(52 - exponent |(n : ℚ)|).toNat, by omega⟩
      refine ⟨n * 2 ^ j, ?_⟩
      rw [hj, zpow_neg, zpow_natCast]
      push_cast
      field_simp
  obtain ⟨z, hz⟩ := hz
  have hy : (z : ℚ) * 2 ^ (exponent |(n : ℚ)| - 52) = n := by
    rw [← hz]
    field_simp
  unfold round64
  simp only [hz, roundHalfEven_intCast, hy]
  rw [if_neg]
  rw [not_le]
  exact lt_of_le_of_lt hq (by norm_num)

theorem const_values :
    Float64.const 0 = .fin 0 ∧ Float64.const 1 = .fin 1 ∧
    Float64.const (2.0 / 8.0) = .fin 0.25 ∧ Float64.const (4.0 / 8.0) = .fin 0.5 ∧
    Float64.const (7.0 / 8.0) = .fin 0.875 := by
  decide!

theorem const_36 : Float64.const 3.6 = .fin (8106479329266893 / 2251799813685248) := by
  decide!

theorem ofInt_exact (n : ℤ) (h : |n| ≤ 2 ^ 53) : Float64.ofInt n = .fin (n : ℚ) :=
  round64_intCast n h

/-! ## Lemmas on the registry and the collector -/

theorem setGauge_eq_put {name station : String} {v : Float64} {metrics : Metrics}
    (h : (metrics name).isSome = true) :
    setGauge name station v metrics = some (put name station v metrics) := by
  unfold setGauge put
  cases hm : metrics name with
  | none => simp [hm] at h
  | some g => simp

theorem put_isSome (name station : String) (v : Float64) (metrics : Metrics) (m : String) :
    (put name station v metrics m).isSome = (metrics m).isSome := by
  unfold put
  by_cases hm : m = name
  · subst hm; simp
  · simp [Function.update_noteq hm]

theorem value_put (name station : String) (v : Float64) (metrics : Metrics) (m s : String) :
    value (put name station v metrics) m s =
      if m = name ∧ s = station ∧ (metrics name).isSome = true then some v
      else value metrics m s := by
  unfold put value
  by_cases hm : m = name
  · subst hm
    cases hg : metrics m with
    | none => simp
    | some g =>
      by_cases hs : s = station
      · subst hs; simp
      · simp [Function.update_noteq hs, hs]
  · simp [Function.update_noteq hm, hm]

theorem registered_iff (metrics : Metrics) :
    Registered metrics ↔
      (metrics metricTemperature).isSome = true ∧ (metrics metricSuccess).isSome = true ∧
      (metrics metricTime).isSome = true ∧ (metrics metricDewpoint).isSome = true ∧
      (metrics metricWindDirection).isSome = true ∧ (metrics metricWindSpeed).isSome = true ∧
      (metrics metricVisibility).isSome = true ∧ (metrics metricAltimeter).isSome = true ∧
      (metrics metricSkyCover).isSome = true ∧ (metrics metricFetchTime).isSome = true ∧
      (metrics metricBft).isSome = true := by
  simp [Registered, metricNames]

theorem queryStation_error_eq (lib : Metar) (err : String) (now : Time) (station : String)
    (metrics : Metrics) (h : Registered metrics) :
    queryStation lib (.error err) now station metrics
      = some (put metricSuccess station (.fin 0) metrics) := by
  have h2 := ((registered_iff metrics).1 h).2.1
  simp [queryStation, setGauge_eq_put, h2, const_values.1]

theorem putAll_isSome (station : String) (ws : List (String × Float64)) (metrics : Metrics)
    (m : String) : (putAll station ws metrics m).isSome = (metrics m).isSome := by
  induction ws generalizing metrics with
  | nil => rfl
  | cons w ws ih => simp only [putAll, ih, put_isSome]

theorem registered_putAll (station : String) (ws : List (String × Float64)) (metrics : Metrics)
    (h : Registered metrics) : Registered (putAll station ws metrics) := by
  intro n hn
  rw [putAll_isSome]
  exact h n hn

theorem value_putAll (station : String) (ws : List (String × Float64)) (metrics : Metrics)
    (h : ∀ w ∈ ws, (metrics w.1).isSome = true) (m s : String) :
    value (putAll station ws metrics) m s =
      if s = station then overlay ws m (value metrics m s) else value metrics m s := by
  induction ws generalizing metrics with
  | nil => simp [putAll, overlay]
  | cons w ws ih =>
    have hw : (metrics w.1).isSome = true := h w (List.mem_cons_self _ _)
    have hrest : ∀ x ∈ ws, (put w.1 station w.2 metrics x.1).isSome = true := by
      intro x hx
      rw [put_isSome]
      exact h x (List.mem_cons_of_mem _ hx)
    rw [putAll, ih _ hrest, value_put, overlay]
    by_cases hs : s = station
    · simp [hs, hw]
    · simp [hs]

theorem overlay_of_not_mem (ws : List (String × Float64)) (m : String) (old : Option Float64)
    (h : m ∉ ws.map Prod.fst) : overlay ws m old = old := by
  induction ws generalizing old with
  | nil => rfl
  | cons w ws ih =>
    simp only [List.map_cons, List.mem_cons, not_or] at h
    rw [overlay, ih _ h.2, if_neg h.1]

theorem overlay_of_mem (ws : List (String × Float64)) (m : String) (a b : Option Float64)
    (h : m ∈ ws.map Prod.fst) : overlay ws m a = overlay ws m b := by
  induction ws generalizing a b with
  | nil => simp at h
  | cons w ws ih =>
    simp only [overlay]
    by_cases hm : m = w.1
    · simp [hm]
    · simp only [List.map_cons, List.mem_cons, hm, false_or] at h
      exact ih _ _ h

theorem writes_registered (lib : Metar) (data : Observation) (now : Time) (metrics : Metrics)
    (h : Registered metrics) : ∀ w ∈ writes lib data now, (metrics w.1).isSome = true := by
  intro w hw
  apply h
  unfold writes at hw
  cases hc : skyCoverFraction data.SkyCondition.SkyCover <;>
    simp only [hc] at hw <;> simp at hw <;>
    casesm* _ ∨ _ <;> subst_vars <;> simp [metricNames]

theorem queryStation_ok_eq (lib : Metar) (data : Observation) (now : Time) (station : String)
    (metrics : Metrics) (h : Registered metrics) :
    queryStation lib (.ok data) now station metrics
      = some (putAll station (writes lib data now) metrics) := by
  obtain ⟨h1, h2, h3, h4, h5, h6, h7, h8, h9, h10, h11⟩ := (registered_iff metrics).1 h
  unfold queryStation
  simp only [Option.bind_eq_bind, setGauge_eq_put, put_isSome, h1, h2, h3, h4, h5, h6, h7, h8,
    h9, h10, h11, Option.some_bind]
  split_ifs with c1 c2 c3 c4 c5
  · simp [writes, skyCoverFraction, c1, putAll]
  · simp [writes, skyCoverFraction, c1, c2, putAll]
  · simp [writes, skyCoverFraction, c1, c2, c3, putAll]
  · simp [writes, skyCoverFraction, c1, c2, c3, c4, putAll]
  · simp [writes, skyCoverFraction, c1, c2, c3, c4, c5, putAll]
  · simp [writes, skyCoverFraction, c1, c2, c3, c4, c5, putAll]

theorem value_queryStation_ok (lib : Metar) (data : Observation) (now : Time)
    (station : String) (metrics : Metrics) (h : Registered metrics) (m s : String) :
    value (putAll station (writes lib data now) metrics) m s =
      if s = station then overlay (writes lib data now) m (value metrics m s)
      else value metrics m s :=
  value_putAll station _ metrics (writes_registered lib data now metrics h) m s

theorem overlay_writes_fixed (lib : Metar) (data : Observation) (now : Time) (old : Option Float64) :
    overlay (writes lib data now) metricTemperature old = some data.Temperature ∧
    overlay (writes lib data now) metricSuccess old = some (.fin 1) ∧
    overlay (writes lib data now) metricTime old
      = some (Float64.ofInt data.ObservationTime.Unix) ∧
    overlay (writes lib data now) metricDewpoint old = some data.Dewpoint ∧
    overlay (writes lib data now) metricWindDirection old
      = some (Float64.ofInt data.WindDirDegrees) ∧
    overlay (writes lib data now) metricWindSpeed old
      = some ((lib.KtsToMs (Float64.ofInt data.WindSpeed)).mul (Float64.const 3.6)) ∧
    overlay (writes lib data now) metricVisibility old
      = some (lib.StatMileToKm data.VisibilityStatute) ∧
    overlay (writes lib data now) metricAltimeter old = some (lib.InHgTohPa data.Altimeter) ∧
    overlay (writes lib data now) metricFetchTime old = some (Float64.ofInt now.Unix) ∧
    overlay (writes lib data now) metricBft old
      = some (Float64.ofInt (lib.KtsToBft (Float64.ofInt data.WindSpeed))) := by
  cases hc : skyCoverFraction data.SkyCondition.SkyCover <;>
    simp [writes, hc, overlay, const_values.2.1, metricTemperature, metricSuccess, metricTime, metricDewpoint,
      metricWindDirection, metricWindSpeed, metricVisibility, metricAltimeter, metricSkyCover,
      metricFetchTime, metricBft]

theorem overlay_writes_skycover (lib : Metar) (data : Observation) (now : Time)
    (old : Option Float64) :
    overlay (writes lib data now) metricSkyCover old =
      match skyCoverFraction data.SkyCondition.SkyCover with
      | some v => some v
      | none => old := by
  cases hc : skyCoverFraction data.SkyCondition.SkyCover <;>
    simp [writes, hc, overlay, metricTemperature, metricSuccess, metricTime, metricDewpoint,
      metricWindDirection, metricWindSpeed, metricVisibility, metricAltimeter, metricSkyCover,
      metricFetchTime, metricBft]

theorem mem_writes_names (lib : Metar) (data : Observation) (now : Time) (m : String) :
    m ∈ (writes lib data now).map Prod.fst ↔
      m ∈ metricSuccess :: observationMetrics ∨
      (m = metricSkyCover ∧ (skyCoverFraction data.SkyCondition.SkyCover).isSome = true) := by
  cases hc : skyCoverFraction data.SkyCondition.SkyCover <;>
    simp [writes, hc, observationMetrics] <;> tauto

theorem skyCoverFraction_isSome (c : String) :
    (skyCoverFraction c).isSome = true ↔
      c ∈ ["SKC", "CLR", "NSC", "CAVOK", "FEW", "SCT", "BKN", "OVC"] := by
  unfold skyCoverFraction
  split_ifs with c1 c2 c3 c4 c5 <;>
    simp_all [StringInSlice, SkyCoverFEW, SkyCoverSCT, SkyCoverBKN, SkyCoverOVC] <;> tauto

theorem skyCoverFraction_literal :
    skyCoverFraction "FEW" = some (.fin 0.25) ∧ skyCoverFraction "SCT" = some (.fin 0.5) ∧
    skyCoverFraction "BKN" = some (.fin 0.875) ∧ skyCoverFraction "OVC" = some (.fin 1) := by
  obtain ⟨_, c1, c2, c3, c4⟩ := const_values
  refine ⟨?_, ?_, ?_, ?_⟩ <;>
    simp [skyCoverFraction, StringInSlice, SkyCoverFEW, SkyCoverSCT, SkyCoverBKN,
      SkyCoverOVC, c1, c2, c3, c4]

theorem skyCoverFraction_eq_none (c : String)
    (h : c ∉ ["SKC", "CLR", "NSC", "CAVOK", "FEW", "SCT", "BKN", "OVC"]) :
    skyCoverFraction c = none := by
  have := (skyCoverFraction_isSome c).not.2 h
  simpa using this

theorem registerMetrics_eq_buildAll (metrics : Metrics) :
    registerMetrics metrics = buildAll metricHelp metrics := by
  simp only [registerMetrics, buildAll, metricHelp, Option.bind_eq_bind, Option.bind_some]

theorem hasHelp_of_buildMetric {name help : String} {metrics r : Metrics}
    (h : buildMetric name help metrics = some r) :
    HasHelp r name help ∧ (∀ k x, HasHelp metrics k x → HasHelp r k x) ∧
      ∀ k, (r k).isSome = true ↔ ((metrics k).isSome = true ∨ k = name) := by
  unfold buildMetric at h
  cases hm : metrics name with
  | none =>
    simp only [hm, Option.some.injEq] at h
    subst h
    refine ⟨⟨{ help := help, values := fun _ => none }, by simp, rfl⟩, ?_, ?_⟩
    · rintro k x ⟨g, hg, hx⟩
      have hk : k ≠ name := by
        rintro rfl
        simp [hm] at hg
      exact ⟨g, by simp [Function.update_noteq hk, hg], hx⟩
    · intro k
      by_cases hk : k = name
      · subst hk; simp
      · simp [Function.update_noteq hk, hk]
  | some g =>
    simp only [hm] at h
    split_ifs at h with hg
    simp only [Option.some.injEq] at h
    subst h
    refine ⟨⟨g, hm, hg⟩, fun _ _ hx => hx, ?_⟩
    intro k
    constructor
    · exact fun hk => Or.inl hk
    · rintro (hk | rfl)
      · exact hk
      · simp [hm]

theorem buildMetric_of_hasHelp {name help : String} {metrics : Metrics}
    (h : HasHelp metrics name help) : buildMetric name help metrics = some metrics := by
  obtain ⟨g, hg, hx⟩ := h
  simp [buildMetric, hg, hx]

theorem buildAll_spec (ds : List (String × String)) (metrics r : Metrics)
    (h : buildAll ds metrics = some r) :
    (∀ d ∈ ds, HasHelp r d.1 d.2) ∧ (∀ k x, HasHelp metrics k x → HasHelp r k x) ∧
      ∀ k, (r k).isSome = true ↔ ((metrics k).isSome = true ∨ k ∈ ds.map Prod.fst) := by
  induction ds generalizing metrics with
  | nil =>
    simp only [buildAll, Option.some.injEq] at h
    subst h
    simp
  | cons d ds ih =>
    simp only [buildAll] at h
    cases hb : buildMetric d.1 d.2 metrics with
    | none => simp [hb] at h
    | some m1 =>
      simp only [hb, Option.some_bind] at h
      obtain ⟨a1, a2, a3⟩ := hasHelp_of_buildMetric hb
      obtain ⟨b1, b2, b3⟩ := ih m1 h
      refine ⟨?_, fun k x hx => b2 k x (a2 k x hx), ?_⟩
      · intro e he
        rcases List.mem_cons.1 he with rfl | he
        · exact b2 _ _ a1
        · exact b1 e he
      · intro k
        rw [b3, a3]
        simp only [List.map_cons, List.mem_cons]
        tauto

theorem buildAll_of_hasHelp (ds : List (String × String)) (metrics : Metrics)
    (h : ∀ d ∈ ds, HasHelp metrics d.1 d.2) : buildAll ds metrics = some metrics := by
  induction ds with
  | nil => rfl
  | cons d ds ih =>
    rw [buildAll, buildMetric_of_hasHelp (h d (List.mem_cons_self _ _)), Option.some_bind]
    exact ih fun e he => h e (List.mem_cons_of_mem _ he)

theorem registerMetrics_again (metrics r : Metrics) (h : registerMetrics metrics = some r) :
    registerMetrics r = some r := by
  rw [registerMetrics_eq_buildAll] at h ⊢
  exact buildAll_of_hasHelp _ _ (buildAll_spec _ _ _ h).1

theorem queryStation_changes_named (lib : Metar) (fetched : Except String Observation)
    (now : Time) (station : String) (metrics : Metrics) (h : Registered metrics) :
    ∃ r, queryStation lib fetched now station metrics = some r ∧ Registered r ∧
      ∀ m s, value r m s ≠ value metrics m s → m ∈ metricNames := by
  cases fetched with
  | error err =>
    refine ⟨_, queryStation_error_eq lib err now station metrics h, ?_, ?_⟩
    · intro n hn
      rw [put_isSome]
      exact h n hn
    · intro m s hne
      by_contra hm
      apply hne
      have : m ≠ metricSuccess := by
        rintro rfl
        exact hm (by simp [metricNames])
      simp [value_put, this]
  | ok data =>
    refine ⟨_, queryStation_ok_eq lib data now station metrics h,
      registered_putAll _ _ _ h, ?_⟩
    intro m s hne
    by_contra hm
    apply hne
    have hw : m ∉ (writes lib data now).map Prod.fst := by
      rw [mem_writes_names]
      simp only [metricNames, observationMetrics, List.mem_cons, List.mem_singleton,
        List.not_mem_nil, or_false, not_or] at hm ⊢
      tauto
    rw [value_queryStation_ok lib data now station metrics h, overlay_of_not_mem _ _ _ hw]
    simp

theorem skyCoverFraction_range (c : String) (v : Float64) (h : skyCoverFraction c = some v) :
    v = .fin 0 ∨ v = .fin 0.25 ∨ v = .fin 0.5 ∨ v = .fin 0.875 ∨ v = .fin 1 := by
  obtain ⟨c0, c1, c2, c3, c4⟩ := const_values
  unfold skyCoverFraction at h
  rw [c0, c1, c2, c3, c4] at h
  split_ifs at h <;> simp only [Option.some.injEq] at h <;> subst h <;> simp

theorem consistent_queryStation (lib : Metar) (fetched : Except String Observation)
    (now : Time) (station : String) (metrics : Metrics) (h : Registered metrics)
    (hc : Consistent metrics) :
    ∃ r, queryStation lib fetched now station metrics = some r ∧ Registered r ∧
      Consistent r := by
  cases fetched with
  | error err =>
    have hreg : Registered (put metricSuccess station (.fin 0) metrics) := by
      intro n hn
      rw [put_isSome]
      exact h n hn
    have h2 := ((registered_iff metrics).1 h).2.1
    refine ⟨_, queryStation_error_eq lib err now station metrics h, hreg, ?_⟩
    intro s
    obtain ⟨c1, c2, c3⟩ := hc s
    have hobs : ∀ m ∈ observationMetrics,
        value (put metricSuccess station (.fin 0) metrics) m s = value metrics m s := by
      intro m hm
      have : m ≠ metricSuccess := by
        rintro rfl
        revert hm
        decide
      simp [value_put, this]
    have hsky : value (put metricSuccess station (.fin 0) metrics) metricSkyCover s
        = value metrics metricSkyCover s := by
      have : metricSkyCover ≠ metricSuccess := by decide
      simp [value_put, this]
    refine ⟨?_, ?_, ?_⟩
    · intro v hv
      rw [value_put] at hv
      split_ifs at hv with hcase
      · simp only [Option.some.injEq] at hv
        exact Or.inl hv.symm
      · exact c1 v hv
    · rw [hsky]
      exact c2
    · rintro ⟨m, hm, hv⟩
      rw [hobs m hm] at hv
      obtain ⟨d1, d2⟩ := c3 ⟨m, hm, hv⟩
      refine ⟨fun k hk => by rw [hobs k hk]; exact d1 k hk, ?_⟩
      rw [value_put]
      split_ifs
      · rfl
      · exact d2
  | ok data =>
    refine ⟨_, queryStation_ok_eq lib data now station metrics h,
      registered_putAll _ _ _ h, ?_⟩
    intro s
    obtain ⟨c1, c2, c3⟩ := hc s
    by_cases hs : s = station
    · subst hs
      have f := fun old => overlay_writes_fixed lib data now old
      simp only [value_queryStation_ok lib data now s metrics h, if_true]
      refine ⟨?_, ?_, ?_⟩
      · intro v hv
        rw [(f _).2.1] at hv
        simp only [Option.some.injEq] at hv
        exact Or.inr hv.symm
      · intro v hv
        rw [overlay_writes_skycover] at hv
        cases hfrac : skyCoverFraction data.SkyCondition.SkyCover with
        | none =>
          simp only [hfrac] at hv
          exact c2 v hv
        | some w =>
          simp only [hfrac, Option.some.injEq] at hv
          subst hv
          exact skyCoverFraction_range _ _ hfrac
      · intro _
        refine ⟨?_, by rw [(f _).2.1]; rfl⟩
        intro m hm
        simp only [observationMetrics, List.mem_cons, List.mem_singleton, List.not_mem_nil,
          or_false] at hm
        rcases hm with rfl | rfl | rfl | rfl | rfl | rfl | rfl | rfl | rfl
        · rw [(f _).1]; rfl
        · rw [(f _).2.2.1]; rfl
        · rw [(f _).2.2.2.1]; rfl
        · rw [(f _).2.2.2.2.1]; rfl
        · rw [(f _).2.2.2.2.2.1]; rfl
        · rw [(f _).2.2.2.2.2.2.1]; rfl
        · rw [(f _).2.2.2.2.2.2.2.1]; rfl
        · rw [(f _).2.2.2.2.2.2.2.2.1]; rfl
        · rw [(f _).2.2.2.2.2.2.2.2.2]; rfl
    · simp only [value_queryStation_ok lib data now station metrics h, if_neg hs]
      exact ⟨c1, c2, c3⟩

theorem consistent_runCalls (lib : Metar) (calls : List Call) (metrics : Metrics)
    (h : Registered metrics) (hc : Consistent metrics) :
    ∃ r, runCalls lib calls metrics = some r ∧ Registered r ∧ Consistent r := by
  induction calls generalizing metrics with
  | nil => exact ⟨metrics, rfl, h, hc⟩
  | cons c cs ih =>
    obtain ⟨r1, e1, g1, k1⟩ := consistent_queryStation lib c.fetched c.now c.station metrics h hc
    obtain ⟨r, e, g, k⟩ := ih r1 g1 k1
    exact ⟨r, by rw [runCalls, e1, Option.some_bind, e], g, k⟩

theorem consistent_of_no_value (metrics : Metrics) (h : ∀ m s, value metrics m s = none) :
    Consistent metrics := by
  intro s
  refine ⟨?_, ?_, ?_⟩
  · intro v hv
    simp [h] at hv
  · intro v hv
    simp [h] at hv
  · rintro ⟨m, _, hv⟩
    simp [h] at hv

theorem value_buildMetric {name help : String} {metrics r : Metrics}
    (h : buildMetric name help metrics = some r) (m s : String) :
    value r m s = value metrics m s := by
  unfold buildMetric at h
  cases hm : metrics name with
  | none =>
    simp only [hm, Option.some.injEq] at h
    subst h
    by_cases hk : m = name
    · subst hk
      simp [value, hm]
    · simp [value, Function.update_noteq hk]
  | some g =>
    simp only [hm] at h
    split_ifs at h
    simp only [Option.some.injEq] at h
    rw [h]

theorem value_buildAll (ds : List (String × String)) (metrics r : Metrics)
    (h : buildAll ds metrics = some r) (m s : String) : value r m s = value metrics m s := by
  induction ds generalizing metrics with
  | nil =>
    simp only [buildAll, Option.some.injEq] at h
    rw [h]
  | cons d ds ih =>
    simp only [buildAll] at h
    cases hb : buildMetric d.1 d.2 metrics with
    | none => simp [hb] at h
    | some m1 =>
      simp only [hb, Option.some_bind] at h
      rw [ih m1 h, value_buildMetric hb]

theorem value_startMetrics (m s : String) : value startMetrics m s = none := by
  have hstart : (registerMetrics emptyMetrics).isSome = true := by decide
  cases hr : registerMetrics emptyMetrics with
  | none => simp [hr] at hstart
  | some r =>
    have hsm : startMetrics = r := by simp [startMetrics, hr]
    rw [hsm, value_buildAll _ _ _ ((registerMetrics_eq_buildAll _).symm.trans hr)]
    rfl

/-! ## Lemmas on the accumulated rounding error -/

theorem close_of_round64 (x : ℚ) (h1 : (2 : ℚ) ^ (-1022 : ℤ) ≤ |x|)
    (h2 : |x| < (2 : ℚ) ^ (1023 : ℤ)) :
    ∃ y, round64 x = .fin y ∧ Close (1 / 2 ^ 53) y x := by
  obtain ⟨y, hy, he⟩ := round64_error x h1 h2
  refine ⟨y, hy, ?_⟩
  unfold Close
  calc |y - x| ≤ |x| / 2 ^ 53 := he
    _ = 1 / 2 ^ 53 * |x| := by ring

theorem close_bounds {ε a b : ℚ} (h : Close ε a b) (hε : ε ≤ 1 / 2) :
    |b| / 2 ≤ |a| ∧ |a| ≤ 2 * |b| := by
  unfold Close at h
  have hb : (0 : ℚ) ≤ |b| := abs_nonneg b
  have h1 : ε * |b| ≤ 1 / 2 * |b| := mul_le_mul_of_nonneg_right hε hb
  have h2 := abs_sub_abs_le_abs_sub a b
  have h3 := abs_sub_abs_le_abs_sub b a
  rw [abs_sub_comm b a] at h3
  constructor <;> linarith

theorem close_trans {ε₁ ε₂ a b c : ℚ} (h₁ : Close ε₁ a b) (h₂ : Close ε₂ b c) (hε : 0 ≤ ε₁) :
    Close (ε₁ + ε₂ + ε₁ * ε₂) a c := by
  unfold Close at *
  have hc : (0 : ℚ) ≤ |c| := abs_nonneg c
  have hb : |b| ≤ |c| + ε₂ * |c| := by
    have := abs_sub_abs_le_abs_sub b c
    linarith
  have h3 : ε₁ * |b| ≤ ε₁ * (|c| + ε₂ * |c|) := mul_le_mul_of_nonneg_left hb hε
  calc |a - c| = |(a - b) + (b - c)| := by ring_nf
    _ ≤ |a - b| + |b - c| := abs_add _ _
    _ ≤ ε₁ * (|c| + ε₂ * |c|) + ε₂ * |c| := by linarith
    _ = (ε₁ + ε₂ + ε₁ * ε₂) * |c| := by ring

theorem close_mul {ε₁ ε₂ a b c d : ℚ} (h₁ : Close ε₁ a b) (h₂ : Close ε₂ c d) (hε : 0 ≤ ε₁) :
    Close (ε₁ + ε₂ + ε₁ * ε₂) (a * c) (b * d) := by
  unfold Close at *
  have hd : (0 : ℚ) ≤ |d| := abs_nonneg d
  have hb : (0 : ℚ) ≤ |b| := abs_nonneg b
  have hc : |c| ≤ |d| + ε₂ * |d| := by
    have := abs_sub_abs_le_abs_sub c d
    linarith
  have h3 : |a - b| * |c| ≤ ε₁ * |b| * (|d| + ε₂ * |d|) :=
    mul_le_mul h₁ hc (abs_nonneg c) (mul_nonneg hε hb)
  have h4 : |b| * |c - d| ≤ |b| * (ε₂ * |d|) := mul_le_mul_of_nonneg_left h₂ hb
  calc |a * c - b * d| = |(a - b) * c + b * (c - d)| := by ring_nf
    _ ≤ |(a - b) * c| + |b * (c - d)| := abs_add _ _
    _ = |a - b| * |c| + |b| * |c - d| := by rw [abs_mul, abs_mul]
    _ ≤ ε₁ * |b| * (|d| + ε₂ * |d|) + |b| * (ε₂ * |d|) := by linarith
    _ = (ε₁ + ε₂ + ε₁ * ε₂) * |b * d| := by rw [abs_mul]; ring

theorem specMetar_wind_speed (v : ℤ) (hv : |v| ≤ 2 ^ 63) :
    ∃ y, (specMetar.KtsToMs (Float64.ofInt v)).mul (Float64.const 3.6) = .fin y ∧
      |y - (v : ℚ) * 1.852| ≤ |(v : ℚ)| * 1.852 / 2 ^ 50 := by
  by_cases h0 : v = 0
  · subst h0
    refine ⟨0, ?_, by simp⟩
    rw [ofInt_exact 0 (by norm_num), const_36]
    simp [specMetar, convert, Float64.mul, round64_zero]
  have hq : |(v : ℚ)| ≤ 2 ^ 63 := by
    rw [← Int.cast_abs]
    exact_mod_cast hv
  have h1 : (1 : ℚ) ≤ |(v : ℚ)| := by
    rw [← Int.cast_abs]
    exact_mod_cast Int.one_le_abs h0
  have hu : (0 : ℚ) ≤ 1 / 2 ^ 53 := by norm_num
  have hu2 : (1 : ℚ) / 2 ^ 53 ≤ 1 / 2 := by norm_num
  -- the conversion of the integer
  obtain ⟨V, hV, cV⟩ := close_of_round64 (v : ℚ) (le_trans (by norm_num) h1)
    (lt_of_le_of_lt hq (by norm_num))
  obtain ⟨bV1, bV2⟩ := close_bounds cV hu2
  -- knots to metres per second
  have hq1 : V * 1.852 / 3.6 = V * (463 / 900) := by
    norm_num
    ring
  have hκ : |V * (463 / 900)| = |V| * (463 / 900) := by
    rw [abs_mul, abs_of_pos (by norm_num : (0 : ℚ) < 463 / 900)]
  have lo1 : (2 : ℚ) ^ (-1022 : ℤ) ≤ |V * (463 / 900)| := by
    rw [hκ]
    have : (1 : ℚ) / 4 ≤ |V| * (463 / 900) := by linarith
    exact le_trans (by norm_num) this
  have hi1 : |V * (463 / 900)| < (2 : ℚ) ^ (1023 : ℤ) := by
    rw [hκ]
    have : |V| * (463 / 900) ≤ 2 ^ 64 := by linarith
    exact lt_of_le_of_lt this (by norm_num)
  obtain ⟨x, hx, cx⟩ := close_of_round64 (V * (463 / 900)) lo1 hi1
  obtain ⟨bx1, bx2⟩ := close_bounds cx hu2
  rw [hκ] at bx1 bx2
  -- the product with 3.6
  have hc : |x * (8106479329266893 / 2251799813685248)|
      = |x| * (8106479329266893 / 2251799813685248) := by
    rw [abs_mul, abs_of_pos (by norm_num : (0 : ℚ) < 8106479329266893 / 2251799813685248)]
  have lo2 : (2 : ℚ) ^ (-1022 : ℤ) ≤ |x * (8106479329266893 / 2251799813685248)| := by
    rw [hc]
    have : (1 : ℚ) / 8 ≤ |x| * (8106479329266893 / 2251799813685248) := by linarith
    exact le_trans (by norm_num) this
  have hi2 : |x * (8106479329266893 / 2251799813685248)| < (2 : ℚ) ^ (1023 : ℤ) := by
    rw [hc]
    have : |x| * (8106479329266893 / 2251799813685248) ≤ 2 ^ 67 := by linarith
    exact lt_of_le_of_lt this (by norm_num)
  obtain ⟨y, hy, cy⟩ := close_of_round64 (x * (8106479329266893 / 2251799813685248)) lo2 hi2
  refine ⟨y, ?_, ?_⟩
  · have : Float64.ofInt v = .fin V := hV
    rw [this, const_36]
    simp only [specMetar, convert, hq1, hx, Float64.mul, hy]
  · have c36 : Close (1 / 2 ^ 53) (8106479329266893 / 2251799813685248 : ℚ) (18 / 5) := by
      unfold Close
      rw [abs_of_pos (by norm_num : (0 : ℚ) < 18 / 5),
        abs_of_pos (by norm_num : (0 : ℚ) < 8106479329266893 / 2251799813685248 - 18 / 5)]
      norm_num
    have cκ : Close 0 (463 / 900 : ℚ) (463 / 900) := by simp [Close]
    have e1 := close_mul cV cκ hu
    have e2 := close_trans cx e1 hu
    have e3 := close_mul e2 c36 (by norm_num)
    have e4 := close_trans cy e3 hu
    unfold Close at e4
    have hval : (v : ℚ) * (463 / 900) * (18 / 5) = (v : ℚ) * 1.852 := by
      norm_num
      ring
    have habs : |(v : ℚ) * 1.852| = |(v : ℚ)| * 1.852 := by
      rw [abs_mul, abs_of_pos (by norm_num : (0 : ℚ) < 1.852)]
    rw [hval, habs] at e4
    refine le_trans e4 ?_
    have hnn : (0 : ℚ) ≤ |(v : ℚ)| * 1.852 := by positivity
    calc _ ≤ 1 / 2 ^ 50 * (|(v : ℚ)| * 1.852) :=
          mul_le_mul_of_nonneg_right (by norm_num) hnn
      _ = |(v : ℚ)| * 1.852 / 2 ^ 50 := by ring

/-- What the wind-speed formula of `queryStation` gives for 10 kt when `KtsToMs`
multiplies by the six-digit factor 0.514444: 18.519984 km/h, further than 1e-9
from 18.52. The value written depends on the library to that extent. -/
theorem wind_speed_truncated_factor :
    (truncatedMetar.KtsToMs (Float64.ofInt 10)).mul (Float64.const 3.6)
      = .fin (2606456032540861 / 140737488355328) ∧
    (1 : ℚ) / 10 ^ 9 < |2606456032540861 / 140737488355328 - 18.52| := by
  constructor
  · decide!
  · rw [abs_of_neg (by norm_num)]
    norm_num

/-! ## The claims -/

/-- C1: when the provider returns an error, `queryStation` completes, leaves
`query_success` of the station at 0 and leaves every other metric value of the
station exactly as it was before the call, present or absent. -/
theorem queryStation_error_only_success (lib : Metar) (err : String) (now : Time)
    (station : String) (metrics : Metrics) (h : Registered metrics) :
    ∃ r, queryStation lib (.error err) now station metrics = some r ∧
      value r metricSuccess station = some (.fin 0) ∧
      ∀ m, m ≠ metricSuccess → value r m station = value metrics m station := by
  refine ⟨_, queryStation_error_eq lib err now station metrics h, ?_, ?_⟩
  · have h2 := ((registered_iff metrics).1 h).2.1
    simp [value_put, h2]
  · intro m hm
    simp [value_put, hm]

theorem queryStation_error_only_success_witness :
    Registered seededMetrics ∧
    ∃ r, queryStation specMetar (.error "connection refused") ⟨1478000600⟩ "KJFK"
        seededMetrics = some r ∧
      value r metricSuccess "KJFK" = some (.fin 0) ∧
      ∀ m, m ≠ metricSuccess → value r m "KJFK" = value seededMetrics m "KJFK" :=
  ⟨by unfold Registered; decide,
   queryStation_error_only_success specMetar "connection refused" ⟨1478000600⟩ "KJFK"
     seededMetrics (by unfold Registered; decide)⟩

/-- C2, as stated, fails: for an observation whose wind direction is the integer
`2 ^ 53 + 1`, the wind-direction gauge of the station is set to `2 ^ 53`, the
nearest `float64`, and not to the observed number. -/
theorem queryStation_ok_values_counterexample :
    ∃ r, queryStation specMetar (.ok obsOddDirection) ⟨1478000300⟩ "EDDF" startMetrics
        = some r ∧
      value r metricWindDirection "EDDF" = some (.fin 9007199254740992) ∧
      value r metricWindDirection "EDDF"
        ≠ some (.fin (obsOddDirection.WindDirDegrees : ℚ)) := by
  have h0 : Registered startMetrics := by unfold Registered; decide
  have f := fun old => overlay_writes_fixed specMetar obsOddDirection ⟨1478000300⟩ old
  have hv : Float64.ofInt obsOddDirection.WindDirDegrees = .fin 9007199254740992 := by decide!
  refine ⟨_, queryStation_ok_eq _ _ _ _ _ h0, ?_, ?_⟩
  · simp only [value_queryStation_ok _ _ _ _ _ h0, if_true]
    rw [(f _).2.2.2.2.1, hv]
  · simp only [value_queryStation_ok _ _ _ _ _ h0, if_true]
    rw [(f _).2.2.2.2.1, hv]
    decide!

/-- C2, amended: on a successful fetch `queryStation` completes and the station
then has `query_success` 1; temperature and dewpoint as observed; wind
direction, observation time (Unix seconds), Beaufort force of the observed
wind speed and fetch time (Unix seconds of the clock reading) as the `float64`
conversion of the integer, which is the integer itself whenever its magnitude
is at most `2 ^ 53`; the wind speed as the `float64` product of
`KtsToMs(float64(WindSpeed))` and 3.6; visibility and altimeter as converted
by `StatMileToKm` and `InHgTohPa`. -/
theorem queryStation_ok_values (lib : Metar) (data : Observation) (now : Time)
    (station : String) (metrics : Metrics) (h : Registered metrics) :
    ∃ r, queryStation lib (.ok data) now station metrics = some r ∧
      value r metricSuccess station = some (.fin 1) ∧
      value r metricTemperature station = some data.Temperature ∧
      value r metricDewpoint station = some data.Dewpoint ∧
      value r metricWindDirection station = some (Float64.ofInt data.WindDirDegrees) ∧
      value r metricTime station = some (Float64.ofInt data.ObservationTime.Unix) ∧
      value r metricWindSpeed station
        = some ((lib.KtsToMs (Float64.ofInt data.WindSpeed)).mul (Float64.const 3.6)) ∧
      value r metricVisibility station = some (lib.StatMileToKm data.VisibilityStatute) ∧
      value r metricAltimeter station = some (lib.InHgTohPa data.Altimeter) ∧
      value r metricBft station
        = some (Float64.ofInt (lib.KtsToBft (Float64.ofInt data.WindSpeed))) ∧
      value r metricFetchTime station = some (Float64.ofInt now.Unix) ∧
      (|data.WindDirDegrees| ≤ 2 ^ 53 →
        value r metricWindDirection station = some (.fin (data.WindDirDegrees : ℚ))) ∧
      (|data.ObservationTime.Unix| ≤ 2 ^ 53 →
        value r metricTime station = some (.fin (data.ObservationTime.Unix : ℚ))) ∧
      (|lib.KtsToBft (Float64.ofInt data.WindSpeed)| ≤ 2 ^ 53 →
        value r metricBft station
          = some (.fin ((lib.KtsToBft (Float64.ofInt data.WindSpeed) : ℤ) : ℚ))) ∧
      (|now.Unix| ≤ 2 ^ 53 → value r metricFetchTime station = some (.fin (now.Unix : ℚ))) := by
  have f := fun old => overlay_writes_fixed lib data now old
  refine ⟨_, queryStation_ok_eq lib data now station metrics h, ?_⟩
  simp only [value_queryStation_ok lib data now station metrics h, if_true]
  refine ⟨(f _).2.1, (f _).1, (f _).2.2.2.1, (f _).2.2.2.2.1, (f _).2.2.1, (f _).2.2.2.2.2.1,
    (f _).2.2.2.2.2.2.1, (f _).2.2.2.2.2.2.2.1, (f _).2.2.2.2.2.2.2.2.2,
    (f _).2.2.2.2.2.2.2.2.1, fun hb => ?_, fun hb => ?_, fun hb => ?_, fun hb => ?_⟩
  · rw [(f _).2.2.2.2.1, ofInt_exact _ hb]
  · rw [(f _).2.2.1, ofInt_exact _ hb]
  · rw [(f _).2.2.2.2.2.2.2.2.2, ofInt_exact _ hb]
  · rw [(f _).2.2.2.2.2.2.2.2.1, ofInt_exact _ hb]

theorem queryStation_ok_values_witness :
    Registered startMetrics ∧
    ∃ r, queryStation specMetar (.ok obsFew) ⟨1478000300⟩ "EDDF" startMetrics = some r ∧
      value r metricSuccess "EDDF" = some (.fin 1) ∧
      value r metricTemperature "EDDF" = some obsFew.Temperature ∧
      value r metricDewpoint "EDDF" = some obsFew.Dewpoint ∧
      value r metricWindDirection "EDDF" = some (Float64.ofInt obsFew.WindDirDegrees) ∧
      value r metricTime "EDDF" = some (Float64.ofInt obsFew.ObservationTime.Unix) ∧
      value r metricWindSpeed "EDDF"
        = some ((specMetar.KtsToMs (Float64.ofInt obsFew.WindSpeed)).mul (Float64.const 3.6)) ∧
      value r metricVisibility "EDDF" = some (specMetar.StatMileToKm obsFew.VisibilityStatute) ∧
      value r metricAltimeter "EDDF" = some (specMetar.InHgTohPa obsFew.Altimeter) ∧
      value r metricBft "EDDF"
        = some (Float64.ofInt (specMetar.KtsToBft (Float64.ofInt obsFew.WindSpeed))) ∧
      value r metricFetchTime "EDDF" = some (Float64.ofInt (⟨1478000300⟩ : Time).Unix) ∧
      (|obsFew.WindDirDegrees| ≤ 2 ^ 53 →
        value r metricWindDirection "EDDF" = some (.fin (obsFew.WindDirDegrees : ℚ))) ∧
      (|obsFew.ObservationTime.Unix| ≤ 2 ^ 53 →
        value r metricTime "EDDF" = some (.fin (obsFew.ObservationTime.Unix : ℚ))) ∧
      (|specMetar.KtsToBft (Float64.ofInt obsFew.WindSpeed)| ≤ 2 ^ 53 →
        value r metricBft "EDDF"
          = some (.fin ((specMetar.KtsToBft (Float64.ofInt obsFew.WindSpeed) : ℤ) : ℚ))) ∧
      (|(⟨1478000300⟩ : Time).Unix| ≤ 2 ^ 53 →
        value r metricFetchTime "EDDF" = some (.fin (((⟨1478000300⟩ : Time).Unix : ℤ) : ℚ))) :=
  ⟨by unfold Registered; decide,
   queryStation_ok_values specMetar obsFew ⟨1478000300⟩ "EDDF" startMetrics
     (by unfold Registered; decide)⟩

/-- C3: whatever the provider returns, `queryStation(s)` completes and changes no
value of any metric under a station label other than `s`. -/
theorem queryStation_other_stations (lib : Metar) (fetched : Except String Observation)
    (now : Time) (station : String) (metrics : Metrics) (h : Registered metrics) :
    ∃ r, queryStation lib fetched now station metrics = some r ∧
      ∀ m s, s ≠ station → value r m s = value metrics m s := by
  cases fetched with
  | error err =>
    refine ⟨_, queryStation_error_eq lib err now station metrics h, ?_⟩
    intro m s hs
    simp [value_put, hs]
  | ok data =>
    refine ⟨_, queryStation_ok_eq lib data now station metrics h, ?_⟩
    intro m s hs
    simp [value_queryStation_ok lib data now station metrics h, hs]

theorem queryStation_other_stations_witness :
    Registered seededMetrics ∧
    ∃ r, queryStation specMetar (.ok obsObscured) ⟨1478003900⟩ "EDDF" seededMetrics = some r ∧
      ∀ m s, s ≠ "EDDF" → value r m s = value seededMetrics m s :=
  ⟨by unfold Registered; decide,
   queryStation_other_stations specMetar (.ok obsObscured) ⟨1478003900⟩ "EDDF" seededMetrics
     (by unfold Registered; decide)⟩

/-- C4: on a successful fetch `queryStation` sets the sky-cover value of the
station to exactly 0 for the categories SKC, CLR, NSC and CAVOK, to exactly
0.25 for FEW, 0.5 for SCT, 0.875 for BKN and 1 for OVC. -/
theorem queryStation_skycover_recognised (lib : Metar) (data : Observation) (now : Time)
    (station : String) (metrics : Metrics) (h : Registered metrics) :
    ∃ r, queryStation lib (.ok data) now station metrics = some r ∧
      (data.SkyCondition.SkyCover ∈ ["SKC", "CLR", "NSC", "CAVOK"] →
        value r metricSkyCover station = some (.fin 0)) ∧
      (data.SkyCondition.SkyCover = "FEW" → value r metricSkyCover station = some (.fin 0.25)) ∧
      (data.SkyCondition.SkyCover = "SCT" → value r metricSkyCover station = some (.fin 0.5)) ∧
      (data.SkyCondition.SkyCover = "BKN" → value r metricSkyCover station = some (.fin 0.875)) ∧
      (data.SkyCondition.SkyCover = "OVC" → value r metricSkyCover station = some (.fin 1)) := by
  refine ⟨_, queryStation_ok_eq lib data now station metrics h, ?_⟩
  simp only [value_queryStation_ok lib data now station metrics h, if_true,
    overlay_writes_skycover]
  refine ⟨fun hc => ?_, fun hc => ?_, fun hc => ?_, fun hc => ?_, fun hc => ?_⟩
  · have : StringInSlice data.SkyCondition.SkyCover ["SKC", "CLR", "NSC", "CAVOK"] = true := by
      simp only [List.mem_cons, List.mem_singleton, List.not_mem_nil, or_false] at hc
      rcases hc with hc | hc | hc | hc <;> rw [hc] <;> decide
    simp [skyCoverFraction, this, const_values.1]
  · rw [hc, skyCoverFraction_literal.1]
  · rw [hc, skyCoverFraction_literal.2.1]
  · rw [hc, skyCoverFraction_literal.2.2.1]
  · rw [hc, skyCoverFraction_literal.2.2.2]

theorem queryStation_skycover_recognised_witness :
    Registered startMetrics ∧
    ∃ r, queryStation specMetar (.ok obsFew) ⟨1478000300⟩ "EDDF" startMetrics = some r ∧
      (obsFew.SkyCondition.SkyCover ∈ ["SKC", "CLR", "NSC", "CAVOK"] →
        value r metricSkyCover "EDDF" = some (.fin 0)) ∧
      (obsFew.SkyCondition.SkyCover = "FEW" → value r metricSkyCover "EDDF" = some (.fin 0.25)) ∧
      (obsFew.SkyCondition.SkyCover = "SCT" → value r metricSkyCover "EDDF" = some (.fin 0.5)) ∧
      (obsFew.SkyCondition.SkyCover = "BKN" → value r metricSkyCover "EDDF" = some (.fin 0.875)) ∧
      (obsFew.SkyCondition.SkyCover = "OVC" → value r metricSkyCover "EDDF" = some (.fin 1)) :=
  ⟨by unfold Registered; decide,
   queryStation_skycover_recognised specMetar obsFew ⟨1478000300⟩ "EDDF" startMetrics
     (by unfold Registered; decide)⟩

/-- C5: on a successful fetch whose sky-cover category is none of SKC, CLR, NSC,
CAVOK, FEW, SCT, BKN, OVC, `queryStation` completes, leaves the sky-cover value
of the station as it was (the prior value, or still absent) and writes the ten
other metrics. -/
theorem queryStation_skycover_unrecognised (lib : Metar) (data : Observation) (now : Time)
    (station : String) (metrics : Metrics) (h : Registered metrics)
    (hc : data.SkyCondition.SkyCover ∉
      ["SKC", "CLR", "NSC", "CAVOK", "FEW", "SCT", "BKN", "OVC"]) :
    ∃ r, queryStation lib (.ok data) now station metrics = some r ∧
      value r metricSkyCover station = value metrics metricSkyCover station ∧
      value r metricSuccess station = some (.fin 1) ∧
      value r metricTemperature station = some data.Temperature ∧
      value r metricDewpoint station = some data.Dewpoint ∧
      value r metricWindDirection station = some (Float64.ofInt data.WindDirDegrees) ∧
      value r metricTime station = some (Float64.ofInt data.ObservationTime.Unix) ∧
      value r metricWindSpeed station
        = some ((lib.KtsToMs (Float64.ofInt data.WindSpeed)).mul (Float64.const 3.6)) ∧
      value r metricVisibility station = some (lib.StatMileToKm data.VisibilityStatute) ∧
      value r metricAltimeter station = some (lib.InHgTohPa data.Altimeter) ∧
      value r metricBft station
        = some (Float64.ofInt (lib.KtsToBft (Float64.ofInt data.WindSpeed))) ∧
      value r metricFetchTime station = some (Float64.ofInt now.Unix) := by
  have f := fun old => overlay_writes_fixed lib data now old
  refine ⟨_, queryStation_ok_eq lib data now station metrics h, ?_⟩
  simp only [value_queryStation_ok lib data now station metrics h, if_true,
    overlay_writes_skycover, skyCoverFraction_eq_none _ hc]
  exact ⟨trivial, (f _).2.1, (f _).1, (f _).2.2.2.1, (f _).2.2.2.2.1, (f _).2.2.1,
    (f _).2.2.2.2.2.1, (f _).2.2.2.2.2.2.1, (f _).2.2.2.2.2.2.2.1, (f _).2.2.2.2.2.2.2.2.2,
    (f _).2.2.2.2.2.2.2.2.1⟩

theorem queryStation_skycover_unrecognised_witness :
    Registered seededMetrics ∧
    obsObscured.SkyCondition.SkyCover ∉
      ["SKC", "CLR", "NSC", "CAVOK", "FEW", "SCT", "BKN", "OVC"] ∧
    ∃ r, queryStation specMetar (.ok obsObscured) ⟨1478003900⟩ "KJFK" seededMetrics = some r ∧
      value r metricSkyCover "KJFK" = value seededMetrics metricSkyCover "KJFK" ∧
      value r metricSuccess "KJFK" = some (.fin 1) ∧
      value r metricTemperature "KJFK" = some obsObscured.Temperature ∧
      value r metricDewpoint "KJFK" = some obsObscured.Dewpoint ∧
      value r metricWindDirection "KJFK" = some (Float64.ofInt obsObscured.WindDirDegrees) ∧
      value r metricTime "KJFK" = some (Float64.ofInt obsObscured.ObservationTime.Unix) ∧
      value r metricWindSpeed "KJFK"
        = some ((specMetar.KtsToMs (Float64.ofInt obsObscured.WindSpeed)).mul
            (Float64.const 3.6)) ∧
      value r metricVisibility "KJFK"
        = some (specMetar.StatMileToKm obsObscured.VisibilityStatute) ∧
      value r metricAltimeter "KJFK" = some (specMetar.InHgTohPa obsObscured.Altimeter) ∧
      value r metricBft "KJFK"
        = some (Float64.ofInt (specMetar.KtsToBft (Float64.ofInt obsObscured.WindSpeed))) ∧
      value r metricFetchTime "KJFK" = some (Float64.ofInt (⟨1478003900⟩ : Time).Unix) :=
  ⟨by unfold Registered; decide, by decide,
   queryStation_skycover_unrecognised specMetar obsObscured ⟨1478003900⟩ "KJFK" seededMetrics
     (by unfold Registered; decide) (by decide)⟩

/-- C6, as stated, fails: on the start registry, collecting `obsFew` (category
FEW) and then `obsObscured` (category OVX) for EDDF leaves the sky-cover value
0.25 of the earlier collection, while collecting `obsObscured` alone leaves
EDDF without a sky-cover value. -/
theorem last_collection_wins_counterexample :
    ∃ r12 r2,
      (queryStation specMetar (.ok obsFew) ⟨1478000300⟩ "EDDF" startMetrics).bind
        (queryStation specMetar (.ok obsObscured) ⟨1478003900⟩ "EDDF") = some r12 ∧
      queryStation specMetar (.ok obsObscured) ⟨1478003900⟩ "EDDF" startMetrics = some r2 ∧
      value r12 metricSkyCover "EDDF" = some (.fin 0.25) ∧
      value r2 metricSkyCover "EDDF" = none := by
  have h0 : Registered startMetrics := by unfold Registered; decide
  have h1 := registered_putAll "EDDF" (writes specMetar obsFew ⟨1478000300⟩) startMetrics h0
  have hs : value startMetrics metricSkyCover "EDDF" = none := by decide
  have hx : skyCoverFraction obsObscured.SkyCondition.SkyCover = none :=
    skyCoverFraction_eq_none _ (by decide)
  have hf : skyCoverFraction obsFew.SkyCondition.SkyCover = some (.fin 0.25) :=
    skyCoverFraction_literal.1
  refine ⟨putAll "EDDF" (writes specMetar obsObscured ⟨1478003900⟩)
      (putAll "EDDF" (writes specMetar obsFew ⟨1478000300⟩) startMetrics), _, ?_,
    queryStation_ok_eq _ _ _ _ _ h0, ?_, ?_⟩
  · rw [queryStation_ok_eq _ _ _ _ _ h0, Option.some_bind, queryStation_ok_eq _ _ _ _ _ h1]
  · simp only [value_queryStation_ok _ _ _ _ _ h1, value_queryStation_ok _ _ _ _ _ h0, if_true,
      overlay_writes_skycover, hx, hf]
  · simp only [value_queryStation_ok _ _ _ _ _ h0, if_true, overlay_writes_skycover, hx, hs]

/-- C6, amended: for two successful collections of the same station run one after
the other, every metric of the station other than the sky cover ends with the
value that the second collection alone would leave; so does the sky cover when
the second observation has one of the eight recognised categories, and
otherwise the sky cover keeps the value the first collection left. -/
theorem last_collection_wins (lib : Metar) (o1 o2 : Observation) (t1 t2 : Time)
    (station : String) (metrics : Metrics) (h : Registered metrics) :
    ∃ r1 r12 r2,
      queryStation lib (.ok o1) t1 station metrics = some r1 ∧
      queryStation lib (.ok o2) t2 station r1 = some r12 ∧
      queryStation lib (.ok o2) t2 station metrics = some r2 ∧
      (∀ m, m ≠ metricSkyCover → value r12 m station = value r2 m station) ∧
      (o2.SkyCondition.SkyCover ∈ ["SKC", "CLR", "NSC", "CAVOK", "FEW", "SCT", "BKN", "OVC"] →
        value r12 metricSkyCover station = value r2 metricSkyCover station) ∧
      (o2.SkyCondition.SkyCover ∉ ["SKC", "CLR", "NSC", "CAVOK", "FEW", "SCT", "BKN", "OVC"] →
        value r12 metricSkyCover station = value r1 metricSkyCover station) := by
  have h1 := registered_putAll station (writes lib o1 t1) metrics h
  refine ⟨_, _, _, queryStation_ok_eq _ _ _ _ _ h, queryStation_ok_eq _ _ _ _ _ h1,
    queryStation_ok_eq _ _ _ _ _ h, ?_, ?_, ?_⟩
  · intro m hm
    simp only [value_queryStation_ok _ _ _ _ _ h1, value_queryStation_ok _ _ _ _ _ h, if_true]
    by_cases h2 : m ∈ (writes lib o2 t2).map Prod.fst
    · exact overlay_of_mem _ _ _ _ h2
    · have h3 : m ∉ (writes lib o1 t1).map Prod.fst := by
        rw [mem_writes_names] at h2 ⊢
        tauto
      rw [overlay_of_not_mem _ _ _ h2, overlay_of_not_mem _ _ _ h2, overlay_of_not_mem _ _ _ h3]
  · intro hc
    have h2 : metricSkyCover ∈ (writes lib o2 t2).map Prod.fst := by
      rw [mem_writes_names]
      exact Or.inr ⟨rfl, (skyCoverFraction_isSome _).2 hc⟩
    simp only [value_queryStation_ok _ _ _ _ _ h1, value_queryStation_ok _ _ _ _ _ h, if_true]
    exact overlay_of_mem _ _ _ _ h2
  · intro hc
    simp only [value_queryStation_ok _ _ _ _ _ h1, value_queryStation_ok _ _ _ _ _ h, if_true,
      overlay_writes_skycover, skyCoverFraction_eq_none _ hc]

theorem last_collection_wins_witness :
    Registered startMetrics ∧
    ∃ r1 r12 r2,
      queryStation specMetar (.ok obsFew) ⟨1478000300⟩ "EDDF" startMetrics = some r1 ∧
      queryStation specMetar (.ok obsObscured) ⟨1478003900⟩ "EDDF" r1 = some r12 ∧
      queryStation specMetar (.ok obsObscured) ⟨1478003900⟩ "EDDF" startMetrics = some r2 ∧
      (∀ m, m ≠ metricSkyCover → value r12 m "EDDF" = value r2 m "EDDF") ∧
      (obsObscured.SkyCondition.SkyCover ∈
          ["SKC", "CLR", "NSC", "CAVOK", "FEW", "SCT", "BKN", "OVC"] →
        value r12 metricSkyCover "EDDF" = value r2 metricSkyCover "EDDF") ∧
      (obsObscured.SkyCondition.SkyCover ∉
          ["SKC", "CLR", "NSC", "CAVOK", "FEW", "SCT", "BKN", "OVC"] →
        value r12 metricSkyCover "EDDF" = value r1 metricSkyCover "EDDF") :=
  ⟨by unfold Registered; decide,
   last_collection_wins specMetar obsFew obsObscured ⟨1478000300⟩ ⟨1478003900⟩ "EDDF"
     startMetrics (by unfold Registered; decide)⟩

/-- C7: the startup check of `main` stops with the fatal error for the station
list holding a single empty string, but lets the list with zero entries pass:
`main` then starts the scheduler, launches a round over no station and enters
the listener. The single empty string is the only station list that ends in
that fatal error. -/
theorem main_station_check :
    main none none [""]
      = .fatal "You need to specify at least one station to fetch data from." ∧
    main none none [] = .serving [] ∧
    ∀ Stations : List String,
      main none none Stations
          = .fatal "You need to specify at least one station to fetch data from." ↔
        Stations = [""] := by
  refine ⟨rfl, rfl, fun Stations => ?_⟩
  match Stations with
  | [] => simp [main, queryMetrics]
  | [s] => simp [main, queryMetrics]
  | s :: t :: ts => simp [main]

/-- C8, as stated, fails already with the conversion of the spec computed as
exactly as `float64` allows: for an observation of 10 kt the wind-speed gauge
is set to 18.520000000000003..., which is neither the number 18.52, nor the
`float64` nearest to 18.52, nor the `float64` product of 10 and 1.852. -/
theorem wind_speed_kmh_counterexample :
    ∃ r, queryStation specMetar (.ok obsFew) ⟨1478000300⟩ "EDDF" startMetrics = some r ∧
      value r metricWindSpeed "EDDF" = some (.fin (2606458284340675 / 140737488355328)) ∧
      value r metricWindSpeed "EDDF" ≠ some (.fin ((obsFew.WindSpeed : ℚ) * 1.852)) ∧
      value r metricWindSpeed "EDDF" ≠ some (Float64.const ((obsFew.WindSpeed : ℚ) * 1.852)) ∧
      value r metricWindSpeed "EDDF"
        ≠ some ((Float64.ofInt obsFew.WindSpeed).mul (Float64.const 1.852)) := by
  have h0 : Registered startMetrics := by unfold Registered; decide
  have f := fun old => overlay_writes_fixed specMetar obsFew ⟨1478000300⟩ old
  have hv : (specMetar.KtsToMs (Float64.ofInt obsFew.WindSpeed)).mul (Float64.const 3.6)
      = .fin (2606458284340675 / 140737488355328) := by decide!
  refine ⟨_, queryStation_ok_eq _ _ _ _ _ h0, ?_⟩
  simp only [value_queryStation_ok _ _ _ _ _ h0, if_true]
  rw [(f _).2.2.2.2.2.1, hv]
  refine ⟨rfl, ?_, ?_, ?_⟩ <;> decide!

/-- C8, amended: with the knots conversion of the spec (1 kt = 1.852 km/h), for
every observed wind speed `v` in the range of an `int64` the wind-speed gauge
is set to a finite value within `1.852 * |v| / 2 ^ 50` of `v * 1.852`, the
accumulated `float64` rounding; in particular an observation of 10 kt yields
18.52 within 1e-9. -/
theorem wind_speed_kmh (data : Observation) (now : Time) (station : String)
    (metrics : Metrics) (h : Registered metrics) (hv : |data.WindSpeed| ≤ 2 ^ 63) :
    ∃ r y, queryStation specMetar (.ok data) now station metrics = some r ∧
      value r metricWindSpeed station = some (.fin y) ∧
      |y - (data.WindSpeed : ℚ) * 1.852| ≤ |(data.WindSpeed : ℚ)| * 1.852 / 2 ^ 50 ∧
      (data.WindSpeed = 10 → |y - 18.52| ≤ 1 / 10 ^ 9) := by
  obtain ⟨y, hy, hb⟩ := specMetar_wind_speed data.WindSpeed hv
  have f := fun old => overlay_writes_fixed specMetar data now old
  refine ⟨_, y, queryStation_ok_eq _ _ _ _ _ h, ?_, hb, ?_⟩
  · simp only [value_queryStation_ok _ _ _ _ _ h, if_true]
    rw [(f _).2.2.2.2.2.1, hy]
  · intro h10
    rw [h10] at hb
    norm_num at hb ⊢
    exact le_trans hb (by norm_num)

theorem wind_speed_kmh_witness :
    Registered startMetrics ∧ |obsFew.WindSpeed| ≤ 2 ^ 63 ∧
    ∃ r y, queryStation specMetar (.ok obsFew) ⟨1478000300⟩ "EDDF" startMetrics = some r ∧
      value r metricWindSpeed "EDDF" = some (.fin y) ∧
      |y - (obsFew.WindSpeed : ℚ) * 1.852| ≤ |(obsFew.WindSpeed : ℚ)| * 1.852 / 2 ^ 50 ∧
      (obsFew.WindSpeed = 10 → |y - 18.52| ≤ 1 / 10 ^ 9) :=
  ⟨by unfold Registered; decide, by decide,
   wind_speed_kmh obsFew ⟨1478000300⟩ "EDDF" startMetrics (by unfold Registered; decide)
     (by decide)⟩

/-- C9: `registerMetrics`, run on the empty map, defines exactly the eleven metrics
temperature, query_success, observation_time, dewpoint, wind_direction,
wind_speed, visibility, altimeter, skycover, fetch_time and wind_force, whose
names are pairwise distinct; with these defined `queryStation` never writes to
an undefined metric (it completes) and changes values of these metrics only;
and a second `registerMetrics` call succeeds and leaves the registry, hence the
set of defined metrics, as the first call left it. -/
theorem registerMetrics_eleven :
    metricNames = ["temperature", "query_success", "observation_time", "dewpoint",
      "wind_direction", "wind_speed", "visibility", "altimeter", "skycover", "fetch_time",
      "wind_force"] ∧
    metricNames.length = 11 ∧ metricNames.Nodup ∧
    (∃ r, registerMetrics emptyMetrics = some r ∧
      (∀ n, (r n).isSome = true ↔ n ∈ metricNames) ∧
      registerMetrics r = some r) ∧
    (∀ metrics r, registerMetrics metrics = some r →
      registerMetrics r = some r ∧
      ∀ n, (r n).isSome = true ↔ ((metrics n).isSome = true ∨ n ∈ metricNames)) ∧
    (∀ (lib : Metar) (fetched : Except String Observation) (now : Time) (station : String)
        (metrics : Metrics), (∀ n ∈ metricNames, (metrics n).isSome = true) →
      ∃ r, queryStation lib fetched now station metrics = some r ∧
        ∀ m s, value r m s ≠ value metrics m s → m ∈ metricNames) := by
  have hstart : registerMetrics emptyMetrics = some startMetrics := by
    have : (registerMetrics emptyMetrics).isSome = true := by decide
    simp only [startMetrics]
    cases hr : registerMetrics emptyMetrics with
    | none => simp [hr] at this
    | some r => rfl
  have hnames : metricHelp.map Prod.fst = metricNames := rfl
  refine ⟨rfl, rfl, by decide, ⟨startMetrics, hstart, ?_, registerMetrics_again _ _ hstart⟩,
    ?_, ?_⟩
  · intro n
    have := (buildAll_spec _ _ _ ((registerMetrics_eq_buildAll _).symm.trans hstart)).2.2 n
    rw [this, hnames]
    simp [emptyMetrics]
  · intro metrics r hr
    refine ⟨registerMetrics_again _ _ hr, fun n => ?_⟩
    have := (buildAll_spec _ _ _ ((registerMetrics_eq_buildAll _).symm.trans hr)).2.2 n
    rw [this, hnames]
  · intro lib fetched now station metrics h
    obtain ⟨r, hr, _, hch⟩ := queryStation_changes_named lib fetched now station metrics h
    exact ⟨r, hr, hch⟩

/-- C10: starting from a registry with the eleven metrics registered and no value
for any (metric, station) pair, every finite sequence of `queryStation` calls
completes, and afterwards, for each station: the `query_success` value, when
present, is 0 or 1; the `skycover` value, when present, is one of 0, 0.25,
0.5, 0.875, 1; and if any of the nine metrics temperature, observation_time,
dewpoint, wind_direction, wind_speed, visibility, altimeter, fetch_time,
wind_force has a value then all nine and `query_success` have one. -/
theorem runCalls_invariant (lib : Metar) (calls : List Call) (metrics : Metrics)
    (h : Registered metrics) (h0 : ∀ m s, value metrics m s = none) :
    ∃ r, runCalls lib calls metrics = some r ∧
      ∀ s,
        (∀ v, value r metricSuccess s = some v → v = .fin 0 ∨ v = .fin 1) ∧
        (∀ v, value r metricSkyCover s = some v →
          v = .fin 0 ∨ v = .fin 0.25 ∨ v = .fin 0.5 ∨ v = .fin 0.875 ∨ v = .fin 1) ∧
        ((∃ m ∈ [metricTemperature, metricTime, metricDewpoint, metricWindDirection,
              metricWindSpeed, metricVisibility, metricAltimeter, metricFetchTime, metricBft],
            (value r m s).isSome = true) →
          (∀ m ∈ [metricTemperature, metricTime, metricDewpoint, metricWindDirection,
              metricWindSpeed, metricVisibility, metricAltimeter, metricFetchTime, metricBft],
            (value r m s).isSome = true) ∧
          (value r metricSuccess s).isSome = true) := by
  obtain ⟨r, e, _, k⟩ :=
    consistent_runCalls lib calls metrics h (consistent_of_no_value metrics h0)
  exact ⟨r, e, k⟩

theorem runCalls_invariant_witness :
    Registered startMetrics ∧ (∀ m s, value startMetrics m s = none) ∧
    ∃ r, runCalls specMetar sampleCalls startMetrics = some r ∧
      ∀ s,
        (∀ v, value r metricSuccess s = some v → v = .fin 0 ∨ v = .fin 1) ∧
        (∀ v, value r metricSkyCover s = some v →
          v = .fin 0 ∨ v = .fin 0.25 ∨ v = .fin 0.5 ∨ v = .fin 0.875 ∨ v = .fin 1) ∧
        ((∃ m ∈ [metricTemperature, metricTime, metricDewpoint, metricWindDirection,
              metricWindSpeed, metricVisibility, metricAltimeter, metricFetchTime, metricBft],
            (value r m s).isSome = true) →
          (∀ m ∈ [metricTemperature, metricTime, metricDewpoint, metricWindDirection,
              metricWindSpeed, metricVisibility, metricAltimeter, metricFetchTime, metricBft],
            (value r m s).isSome = true) ∧
          (value r metricSuccess s).isSome = true) :=
  ⟨by unfold Registered; decide, value_startMetrics,
   runCalls_invariant specMetar sampleCalls startMetrics (by unfold Registered; decide)
     value_startMetrics⟩

end PrometheusMetar
